import Mathlib

/-!
Verification development for the measurement query-and-retrieval core of the
OONI measurements API (src/measurements/api/measurements.py).

The Python view functions are embedded shallowly:
* SQL rows are Lean structures whose columns are `Option`-valued (SQL NULL is
  `none`); the FULL OUTER JOIN row produced by the outer query is a pair of
  optional side rows, and the column `coalesce` merger is embedded as
  `mergeRow`.
* The network and database are abstracted as parameters: the executed outer
  query is a `DbOutcome` value, remote fetches are a status code plus body
  bytes, and LZ4 decompression is a function parameter.
* Python exceptions that escape a view are modelled by `ApiError`; byte
  strings are `List Nat`.
-/

/-- Python-level failure of a view function.  `badRequest` is
werkzeug's `BadRequest` (HTTP 400), `httpAbort c` is flask's `abort(c)`;
the remaining variants are ordinary Python exceptions that propagate out of
the view and surface as internal errors. -/
inductive ApiError
  | badRequest (msg : String)
  | httpAbort (code : Nat)
  | valueError
  | runtimeError (msg : String)
  | requestsHTTPError (status : Nat)
  | httpClientError
  | operationalError
deriving DecidableEq, Repr

/-- HTTP status produced by each failure: `HTTPException`s carry their own
code, any other exception becomes a 500 internal server error. -/
def ApiError.statusCode : ApiError → Nat
  | badRequest _ => 400
  | httpAbort c => c
  | valueError => 500
  | runtimeError _ => 500
  | requestsHTTPError _ => 500
  | httpClientError => 500
  | operationalError => 500

/-- Whether the failure is a werkzeug `HTTPException` (BadRequest / abort):
those are rendered as HTTP responses by flask instead of propagating out of
the WSGI app. -/
def ApiError.isHTTPException : ApiError → Bool
  | badRequest _ => true
  | httpAbort _ => true
  | _ => false

/-- Whether the failure engages the Sentry error-reporting telemetry
configured in src/measurements/app.py: the Flask integration captures
exceptions that propagate out of a view, while `HTTPException`s are turned
into ordinary responses (see the comment at the `abort(504)` call site in
list_measurements: the timeout is deliberately not fed to Sentry). -/
def ApiError.reportedToSentry (e : ApiError) : Bool := !e.isHTTPException

/-- SQL COALESCE on two nullable values: first non-NULL argument. -/
def coalesce {α : Type} : Option α → Option α → Option α
  | some x, _ => some x
  | none, y => y

@[simp] theorem coalesce_some {α : Type} (x : α) (b : Option α) :
    coalesce (some x) b = some x := rfl

@[simp] theorem coalesce_none {α : Type} (b : Option α) :
    coalesce none b = b := rfl

/-- One side (fastpath `fp` or measurement-report `mr`) of the FULL OUTER
JOIN, as selected by the inner sub-queries of list_measurements.  Columns are
nullable.  `m_report_no`, `exc` and `residual_no` exist only in the `mr`
sub-query; fastpath rows carry `none` there. -/
structure SideRow where
  test_start_time : Option Int
  measurement_start_time : Option Int
  measurement_id : Option String
  m_report_no : Option Int
  anomaly : Option Bool
  confirmed : Option Bool
  failure : Option Bool
  scores : Option String
  exc : Option String
  residual_no : Option Int
  report_id : Option String
  probe_cc : Option String
  probe_asn : Option Int
  test_name : Option String
  input : Option String
deriving DecidableEq, Repr

/-- A column of one join side: when the side is absent from the outer join
all of its columns read as NULL. -/
def colOf {α : Type} (side : Option SideRow) (f : SideRow → Option α) : Option α :=
  side.bind f

/-- Output row of the outer SELECT of list_measurements (the `merger`
column list). -/
structure Row where
  test_start_time : Option Int
  measurement_start_time : Option Int
  measurement_id : Option String
  m_report_no : Int
  anomaly : Option Bool
  confirmed : Option Bool
  failure : Option Bool
  scores : String
  exc : Option String
  residual_no : Int
  report_id : Option String
  probe_cc : Option String
  probe_asn : Option Int
  test_name : Option String
  input : Option String
deriving DecidableEq, Repr

/-- The `merger` column list evaluated on one joined row: fastpath values are
preferred via COALESCE, except `measurement_id` where the mr (canonical)
value wins; `scores` falls back to the literal "{}". -/
def mergeRow (fp mr : Option SideRow) : Row where
  test_start_time :=
    coalesce (colOf fp SideRow.test_start_time) (colOf mr SideRow.test_start_time)
  measurement_start_time :=
    coalesce (colOf fp SideRow.measurement_start_time)
      (colOf mr SideRow.measurement_start_time)
  measurement_id :=
    coalesce (colOf mr SideRow.measurement_id) (colOf fp SideRow.measurement_id)
  m_report_no := (colOf mr SideRow.m_report_no).getD 0
  anomaly := coalesce (colOf fp SideRow.anomaly) (colOf mr SideRow.anomaly)
  confirmed := coalesce (colOf fp SideRow.confirmed) (colOf mr SideRow.confirmed)
  failure := coalesce (colOf fp SideRow.failure) (colOf mr SideRow.failure)
  scores := (colOf fp SideRow.scores).getD "{}"
  exc := colOf mr SideRow.exc
  residual_no := (colOf mr SideRow.residual_no).getD 0
  report_id := coalesce (colOf fp SideRow.report_id) (colOf mr SideRow.report_id)
  probe_cc := coalesce (colOf fp SideRow.probe_cc) (colOf mr SideRow.probe_cc)
  probe_asn := coalesce (colOf fp SideRow.probe_asn) (colOf mr SideRow.probe_asn)
  test_name := coalesce (colOf fp SideRow.test_name) (colOf mr SideRow.test_name)
  input := coalesce (colOf fp SideRow.input) (colOf mr SideRow.input)

/-- Python `"%s" % v` for an optional string (None renders as "None"). -/
def pyStrOfOptStr : Option String → String
  | some s => s
  | none => "None"

/-- Python `"AS{}".format(v)`-style rendering of an optional integer. -/
def pyStrOfOptInt : Option Int → String
  | some n => toString n
  | none => "None"

/-- Python `s.startswith(pre)`, decided on decoded characters. -/
def pyStartsWith (s pre : String) : Bool := List.isPrefixOf pre.data s.data

/-- Python `s.lower()` (ASCII case mapping; the full Unicode mapping is not
modelled). -/
def pyLower (s : String) : String := String.mk (s.data.map Char.toLower)

/-- Python `s[n:]` on decoded characters. -/
def pyDropChars (s : String) (n : Nat) : String := String.mk (s.data.drop n)

/-- Python `s.strip()`: remove surrounding whitespace. -/
def pyStrip (s : String) : String :=
  String.mk (((s.data.dropWhile Char.isWhitespace).reverse.dropWhile
    Char.isWhitespace).reverse)

/-- A non-empty all-digit character run read as a decimal natural. -/
def pyDigitsToNat? (l : List Char) : Option Nat :=
  if l = [] then none
  else if l.all Char.isDigit then
    some (l.foldl (fun acc c => acc * 10 + (c.toNat - 48)) 0)
  else none

/-- One element of the `results` list built by list_measurements from an
outer-query row (the dict appended to `tmpresults`).  `scores` keeps the raw
JSON text selected by the query (the Python code runs it through
`json.loads` before serialising it back out). -/
structure Rec where
  measurement_url : String
  measurement_id : Option String
  report_id : Option String
  probe_cc : Option String
  probe_asn : String
  test_name : Option String
  measurement_start_time : Option Int
  input : Option String
  anomaly : Option Bool
  confirmed : Option Bool
  failure : Option Bool
  scores : String
deriving DecidableEq, Repr

/-- The dict appended to `tmpresults` for one outer-query row.  The
measurement URL is the base URL joined with the per-measurement path. -/
def recOfRow (baseUrl : String) (row : Row) : Rec where
  measurement_url := baseUrl ++ "/api/v1/measurement/" ++ pyStrOfOptStr row.measurement_id
  measurement_id := row.measurement_id
  report_id := row.report_id
  probe_cc := row.probe_cc
  probe_asn := "AS" ++ pyStrOfOptInt row.probe_asn
  test_name := row.test_name
  measurement_start_time := row.measurement_start_time
  input := row.input
  anomaly := row.anomaly
  confirmed := row.confirmed
  failure := row.failure
  scores := row.scores

/-- The deduplication key of `_merge_results`: `(r["report_id"], r["input"])`. -/
def recKey (r : Rec) : Option String × Option String := (r.report_id, r.input)

/-- Iteration core of `_merge_results`: the Python dict insert-if-absent loop,
with `seen` the set of keys already stored (dict values are emitted in
insertion order, i.e. order of first occurrence). -/
def mergeResultsAux (seen : List (Option String × Option String)) :
    List Rec → List Rec
  | [] => []
  | r :: rest =>
    if recKey r ∈ seen then mergeResultsAux seen rest
    else r :: mergeResultsAux (recKey r :: seen) rest

/-- `_merge_results`: trim list_measurements outputs that share the same
report_id / input. -/
def _merge_results (l : List Rec) : List Rec := mergeResultsAux [] l

/-- Special value for input = NULL used to merge rows with FULL OUTER JOIN. -/
def INULL : String := ""

/-- The post-merge fixup applied to one record: replace the special value
INULL for "input" with None. -/
def restoreRec (r : Rec) : Rec :=
  if r.input = some INULL then { r with input := none } else r

/-- The post-merge loop replacing the INULL sentinel with None in every
returned record. -/
def restoreInput (rs : List Rec) : List Rec := rs.map restoreRec

/-- `math.ceil(a / b)` on naturals, as computed by the Python code
(exact rational semantics; float rounding of Python's true division is not
modelled). -/
def pyCeil (a b : Nat) : Nat := (a + b - 1) / b

/-- Response metadata.  `next_url` is reduced to the query-string argument
list it encodes (the Python code URL-encodes `request.args` with `offset`
and `limit` overridden); `query_time` is wall-clock time and is not
modelled. -/
structure PageMeta where
  offset : Nat
  limit : Nat
  count : Int
  pages : Int
  current_page : Int
  next_url : Option (List (String × String))
deriving DecidableEq, Repr

/-- Python dict assignment `d[k] = v` on an association list that preserves
insertion order. -/
def setArg (args : List (String × String)) (k v : String) :
    List (String × String) :=
  if args.any (fun p => p.1 == k) then
    args.map (fun p => if p.1 == k then (k, v) else p)
  else args ++ [(k, v)]

/-- Lookup of one query-string argument. -/
def lookupArg (args : List (String × String)) (k : String) : Option String :=
  (args.find? (fun p => p.1 == k)).map Prod.snd

/-- Pagination metadata of list_measurements: `n` is the length of the
deduplicated result list.  A short page fixes the exact count; a full page
reports the -1 sentinels and synthesizes the next-page query string. -/
def paginate (offset limit n : Nat) (args : List (String × String)) : PageMeta :=
  let current_page : Int := (pyCeil offset limit : Nat) + 1
  if n < limit then
    { offset := offset, limit := limit, count := ((offset + n : Nat) : Int),
      pages := (pyCeil (offset + n) limit : Nat), current_page := current_page,
      next_url := none }
  else
    { offset := offset, limit := limit, count := -1, pages := -1,
      current_page := current_page,
      next_url := some (setArg (setArg args "offset" (toString (offset + limit)))
        "limit" (toString limit)) }

/-- An element of the serialized `results` array: a full record in the
normal path, or the single-key `measurement_url` object of the canned
okhttp response. -/
inductive ResultObj
  | record (r : Rec)
  | urlOnly (measurement_url : String)
deriving DecidableEq, Repr

/-- The JSON document returned by list_measurements. -/
structure ListResponse where
  metadata : PageMeta
  results : List ResultObj
deriving DecidableEq, Repr

/-- The fixed response served to okhttp user agents (workaround for
ooni/probe issue 1034); its `query_time` of 0.001 is not modelled. -/
def bug_probe1034_response : ListResponse where
  metadata :=
    { offset := 0, limit := 100, count := 1, pages := 1, current_page := 1,
      next_url := none }
  results := [ResultObj.urlOnly ""]

/-- Outcome of executing the outer query: the joined row set (each row a
pair of optional fastpath / mr sides), or a sqlalchemy `OperationalError`
whose original error may be a psycopg2 `QueryCanceledError`. -/
inductive DbOutcome
  | ok (rows : List (Option SideRow × Option SideRow))
  | operationalError (isQueryCanceled : Bool)

/-- Normalization of one boolean tri-state filter (anomaly / confirmed /
failure), from the Python `set` comparisons in list_measurements: the full
domain means no filtering, otherwise the filter collapses to whether the
set is exactly the singleton containing "true". -/
def normalizeTristate (v : Option (Finset String)) : Option Bool :=
  match v with
  | none => none
  | some s =>
    if s = ({"true", "false"} : Finset String) then none
    else some (decide (s = ({"true"} : Finset String)))

/-- Python `int(s)` on a string: surrounding whitespace, an optional sign
and a non-empty digit run (underscore digit grouping and non-ASCII digits
are not modelled). -/
def pyIntParse (s : String) : Option Int :=
  let t := (pyStrip s).data
  if t.take 1 = [Char.ofNat 45] then
    (pyDigitsToNat? (t.drop 1)).map (fun n => -(n : Int))
  else if t.take 1 = [Char.ofNat 43] then
    (pyDigitsToNat? (t.drop 1)).map (fun n => (n : Int))
  else (pyDigitsToNat? t).map (fun n => (n : Int))

/-- The probe_asn normalization of list_measurements: strip an optional
leading "AS", then call `int`.  The `ValueError` raised by `int` on
non-numeric input is not caught anywhere in the view. -/
def parse_probe_asn (s : String) : Except ApiError Int :=
  let t := if pyStartsWith s "AS" then pyDropChars s 2 else s
  match pyIntParse t with
  | some n => Except.ok n
  | none => Except.error ApiError.valueError

/-- The result-assembly tail of list_measurements: one record per
outer-query row, deduplication by (report_id, input), INULL restoration,
pagination metadata, and the final `[:limit]` truncation. -/
def buildPage (offset limit : Nat) (args : List (String × String))
    (baseUrl : String) (rows : List (Option SideRow × Option SideRow)) :
    ListResponse :=
  let tmpresults := rows.map (fun p => recOfRow baseUrl (mergeRow p.1 p.2))
  let results := restoreInput (_merge_results tmpresults)
  { metadata := paginate offset limit results.length args,
    results := (results.take limit).map ResultObj.record }

/-- list_measurements.  Arguments not affecting any verified behaviour are
omitted: since / until parsing and the construction of the two SQL
sub-queries are abstracted into `db`, the outcome of executing the outer
FULL OUTER JOIN query.  `args` is `request.args`. -/
def list_measurements (userAgent : String) (probe_asn : Option String)
    (order : String) (failure anomaly confirmed : Option (Finset String))
    (offset limit : Nat) (args : List (String × String)) (baseUrl : String)
    (db : DbOutcome) : Except ApiError ListResponse :=
  if pyStartsWith userAgent "okhttp" then Except.ok bug_probe1034_response
  else
    match (match probe_asn with
           | none => Except.ok none
           | some s => (parse_probe_asn s).map some :
           Except ApiError (Option Int)) with
    | Except.error e => Except.error e
    | Except.ok _asn =>
      let _failure := normalizeTristate failure
      let _anomaly := normalizeTristate anomaly
      let _confirmed := normalizeTristate confirmed
      if ¬(pyLower order = "asc" ∨ pyLower order = "desc") then
        Except.error (ApiError.badRequest "Invalid order")
      else
        match db with
        | DbOutcome.operationalError true => Except.error (ApiError.httpAbort 504)
        | DbOutcome.operationalError false => Except.error ApiError.operationalError
        | DbOutcome.ok rows => Except.ok (buildPage offset limit args baseUrl rows)

/-- `RE_MSM_ID.match` for the pattern anchored on "temp-id-" followed by one
or more digits, returning the captured numeric sequence id. -/
def reMsmId (s : String) : Option Nat :=
  if pyStartsWith s "temp-id-" then pyDigitsToNat? (s.data.drop 8) else none

/-- Outcome of the http.client fetch in get_one_fastpath_measurement:
either a response was obtained (its status and the bytes `r.read()`
yields), or `conn.request` / `conn.getresponse` themselves failed (DNS,
connection refused, connect timeout).  Those two calls run before the
`try` block in the source, so their failure is not converted to
BadRequest. -/
inductive FetchOutcome
  | response (status : Nat) (body : List Nat)
  | connectionError
deriving DecidableEq, Repr

/-- get_one_fastpath_measurement: a connection-phase failure raises an
uncaught http.client exception (a 500 internal error), while the whole
`try` block collapses any failure after a response was obtained (the
status assertion or an LZ4 decompression error) into
`BadRequest("No measurement found")`.  `decompressLZ4` returns `none` when
lz4framed raises. -/
def get_one_fastpath_measurement (decompressLZ4 : List Nat → Option (List Nat))
    (fetch : FetchOutcome) : Except ApiError (List Nat) :=
  match fetch with
  | FetchOutcome.connectionError => Except.error ApiError.httpClientError
  | FetchOutcome.response status body =>
    if status = 200 then
      match decompressLZ4 body with
      | some blob => Except.ok blob
      | none => Except.error (ApiError.badRequest "No measurement found")
    else Except.error (ApiError.badRequest "No measurement found")

/-- The locator row fetched by the three-table join of get_measurement:
archive frame byte range and intra-frame slice coordinates. -/
structure MsmtRow where
  frame_off : Nat
  frame_size : Nat
  intra_off : Nat
  intra_size : Nat
  textname : String
  filename : String
deriving DecidableEq, Repr

/-- `lz4framed.decompress(blob)[intra_off : intra_off + intra_size]`. -/
def msmtSlice (decompressLZ4 : List Nat → List Nat) (m : MsmtRow)
    (body : List Nat) : List Nat :=
  ((decompressLZ4 body).drop m.intra_off).take m.intra_size

/-- Python `blob[-1:]`: the last byte as a singleton (empty on empty input). -/
def lastByte (l : List Nat) : List Nat := l.drop (l.length - 1)

/-- The canonical-store payload path of get_measurement after the locator
row was found: `requests.get` with a Range header, `raise_for_status`, the
frame-length check, decompression, slicing, and the structural sanity check
(byte 123 is the opening brace, byte 125 the closing one). -/
def get_measurement_canonical (decompressLZ4 : List Nat → List Nat)
    (m : MsmtRow) (status : Nat) (body : List Nat) :
    Except ApiError (List Nat) :=
  if 400 ≤ status then Except.error (ApiError.requestsHTTPError status)
  else if body.length ≠ m.frame_size then
    Except.error (ApiError.runtimeError "Failed to fetch LZ4 frame")
  else
    let blob := msmtSlice decompressLZ4 m body
    if blob.length ≠ m.intra_size ∨ blob.take 1 ≠ [123] ∨ lastByte blob ≠ [125] then
      Except.error
        (ApiError.runtimeError "Failed to decompress LZ4 frame to measurement.json")
    else Except.ok blob

/-- get_measurement: dispatch on the identifier tag.  `lookup` is the result
of the three-table locator query (`None` when no row matches, producing
`abort(404)`); `fpFetch` is the outcome of the fastpath host fetch and
`status`/`body` the archive range-request response. -/
def get_measurement (decompressLZ4opt : List Nat → Option (List Nat))
    (decompressLZ4 : List Nat → List Nat) (measurement_id : String)
    (fpFetch : FetchOutcome) (lookup : Option MsmtRow)
    (status : Nat) (body : List Nat) : Except ApiError (List Nat) :=
  if pyStartsWith measurement_id "temp-fid-" then
    get_one_fastpath_measurement decompressLZ4opt fpFetch
  else
    match reMsmId measurement_id with
    | none => Except.error (ApiError.badRequest "Invalid measurement_id")
    | some _msm_no =>
      match lookup with
      | none => Except.error (ApiError.httpAbort 404)
      | some m => get_measurement_canonical decompressLZ4 m status body

/-- Example fastpath-side row with every shared column populated. -/
def fpEx : SideRow where
  test_start_time := some 10
  measurement_start_time := some 10
  measurement_id := some "temp-fid-00aa"
  m_report_no := none
  anomaly := some true
  confirmed := some false
  failure := some false
  scores := some "1"
  exc := none
  residual_no := none
  report_id := some "rid1"
  probe_cc := some "IT"
  probe_asn := some 30722
  test_name := some "web_connectivity"
  input := some "https://example.org/"

/-- Example mr-side (canonical) row sharing the join key with `fpEx`. -/
def mrEx : SideRow where
  test_start_time := some 9
  measurement_start_time := some 9
  measurement_id := some "temp-id-5"
  m_report_no := some 7
  anomaly := some false
  confirmed := some false
  failure := some true
  scores := some "{}"
  exc := some "boom"
  residual_no := some 3
  report_id := some "rid1"
  probe_cc := some "DE"
  probe_asn := some 12345
  test_name := some "web_connectivity"
  input := some "https://example.org/"

/-- C1: when both stores contain a row for the same (report_id, input) key,
the record built by list_measurements takes scores, anomaly, confirmed and
failure from the fastpath row when those are non-absent, takes the
measurement identifier from the canonical (mr) row when both identifiers
are non-absent, and every other returned field is the fastpath value when
present, else the canonical value. -/
theorem c1_merge_policy (baseUrl : String) (fp mr : SideRow)
    (hs : fp.scores.isSome = true) (ha : fp.anomaly.isSome = true)
    (hc : fp.confirmed.isSome = true) (hf : fp.failure.isSome = true)
    (hif : fp.measurement_id.isSome = true)
    (him : mr.measurement_id.isSome = true) :
    (recOfRow baseUrl (mergeRow (some fp) (some mr))).scores = fp.scores.get hs ∧
    (recOfRow baseUrl (mergeRow (some fp) (some mr))).anomaly = fp.anomaly ∧
    (recOfRow baseUrl (mergeRow (some fp) (some mr))).confirmed = fp.confirmed ∧
    (recOfRow baseUrl (mergeRow (some fp) (some mr))).failure = fp.failure ∧
    (recOfRow baseUrl (mergeRow (some fp) (some mr))).measurement_id
      = mr.measurement_id ∧
    ((fp.report_id.isSome = true →
      (recOfRow baseUrl (mergeRow (some fp) (some mr))).report_id = fp.report_id) ∧
     (fp.report_id = none →
      (recOfRow baseUrl (mergeRow (some fp) (some mr))).report_id = mr.report_id)) ∧
    ((fp.probe_cc.isSome = true →
      (recOfRow baseUrl (mergeRow (some fp) (some mr))).probe_cc = fp.probe_cc) ∧
     (fp.probe_cc = none →
      (recOfRow baseUrl (mergeRow (some fp) (some mr))).probe_cc = mr.probe_cc)) ∧
    ((fp.probe_asn.isSome = true →
      (recOfRow baseUrl (mergeRow (some fp) (some mr))).probe_asn
        = "AS" ++ pyStrOfOptInt fp.probe_asn) ∧
     (fp.probe_asn = none →
      (recOfRow baseUrl (mergeRow (some fp) (some mr))).probe_asn
        = "AS" ++ pyStrOfOptInt mr.probe_asn)) ∧
    ((fp.test_name.isSome = true →
      (recOfRow baseUrl (mergeRow (some fp) (some mr))).test_name = fp.test_name) ∧
     (fp.test_name = none →
      (recOfRow baseUrl (mergeRow (some fp) (some mr))).test_name = mr.test_name)) ∧
    ((fp.measurement_start_time.isSome = true →
      (recOfRow baseUrl (mergeRow (some fp) (some mr))).measurement_start_time
        = fp.measurement_start_time) ∧
     (fp.measurement_start_time = none →
      (recOfRow baseUrl (mergeRow (some fp) (some mr))).measurement_start_time
        = mr.measurement_start_time)) ∧
    ((fp.input.isSome = true →
      (recOfRow baseUrl (mergeRow (some fp) (some mr))).input = fp.input) ∧
     (fp.input = none →
      (recOfRow baseUrl (mergeRow (some fp) (some mr))).input = mr.input)) := by
  obtain ⟨sv, hsv⟩ : ∃ v, fp.scores = some v := Option.isSome_iff_exists.mp hs
  obtain ⟨av, hav⟩ : ∃ v, fp.anomaly = some v := Option.isSome_iff_exists.mp ha
  obtain ⟨cv, hcv⟩ : ∃ v, fp.confirmed = some v := Option.isSome_iff_exists.mp hc
  obtain ⟨fv, hfv⟩ : ∃ v, fp.failure = some v := Option.isSome_iff_exists.mp hf
  obtain ⟨iv, hiv⟩ : ∃ v, mr.measurement_id = some v :=
    Option.isSome_iff_exists.mp him
  refine ⟨?_, ?_, ?_, ?_, ?_, ⟨?_, ?_⟩, ⟨?_, ?_⟩, ⟨?_, ?_⟩, ⟨?_, ?_⟩,
    ⟨?_, ?_⟩, ⟨?_, ?_⟩⟩
  all_goals first
    | (simp [recOfRow, mergeRow, colOf, hsv, hav, hcv, hfv, hiv]; done)
    | (intro hx
       rcases Option.isSome_iff_exists.mp hx with ⟨v, hv⟩
       simp [recOfRow, mergeRow, colOf, hv]
       done)
    | (intro hx
       simp [recOfRow, mergeRow, colOf, hx])

/-- Concrete instance of the C1 merge policy on `fpEx` / `mrEx`. -/
theorem c1_merge_policy_witness :
    (recOfRow "" (mergeRow (some fpEx) (some mrEx))).scores = "1" ∧
    (recOfRow "" (mergeRow (some fpEx) (some mrEx))).anomaly = some true ∧
    (recOfRow "" (mergeRow (some fpEx) (some mrEx))).measurement_id
      = some "temp-id-5" ∧
    (recOfRow "" (mergeRow (some fpEx) (some mrEx))).probe_cc = some "IT" := by
  have h := c1_merge_policy "" fpEx mrEx rfl rfl rfl rfl rfl rfl
  exact ⟨h.1, by rw [h.2.1]; rfl, h.2.2.2.2.1.trans rfl,
    by rw [h.2.2.2.2.2.2.1.1 rfl]; rfl⟩

/-- Every record emitted by the dedup loop has a key outside `seen` and is
the first record of the remaining input carrying its key. -/
theorem mergeResultsAux_spec (l : List Rec) :
    ∀ (seen : List (Option String × Option String)) (r : Rec),
      r ∈ mergeResultsAux seen l →
      recKey r ∉ seen ∧
      l.find? (fun x => decide (recKey x = recKey r)) = some r := by
  induction l with
  | nil => intro seen r hr; simp [mergeResultsAux] at hr
  | cons a rest ih =>
    intro seen r hr
    by_cases hk : recKey a ∈ seen
    · rw [mergeResultsAux, if_pos hk] at hr
      obtain ⟨hr1, hr2⟩ := ih seen r hr
      have hne : recKey a ≠ recKey r := fun h => hr1 (h ▸ hk)
      refine ⟨hr1, ?_⟩
      rw [List.find?_cons_of_neg _ (by simp [hne]), hr2]
    · rw [mergeResultsAux, if_neg hk] at hr
      rcases List.mem_cons.mp hr with rfl | hr'
      · exact ⟨hk, by rw [List.find?_cons_of_pos _ (by simp)]⟩
      · obtain ⟨hr1, hr2⟩ := ih _ r hr'
        have hr1' : recKey r ∉ seen := fun h => hr1 (List.mem_cons_of_mem _ h)
        have hne : recKey a ≠ recKey r :=
          fun h => hr1 (h ▸ List.mem_cons_self _ _)
        refine ⟨hr1', ?_⟩
        rw [List.find?_cons_of_neg _ (by simp [hne]), hr2]

/-- The dedup loop yields pairwise-distinct keys. -/
theorem mergeResultsAux_pairwise (l : List Rec) :
    ∀ seen, (mergeResultsAux seen l).Pairwise (fun a b => recKey a ≠ recKey b) := by
  induction l with
  | nil => intro seen; simp [mergeResultsAux]
  | cons a rest ih =>
    intro seen
    by_cases hk : recKey a ∈ seen
    · rw [mergeResultsAux, if_pos hk]; exact ih seen
    · rw [mergeResultsAux, if_neg hk]
      refine List.Pairwise.cons ?_ (ih _)
      intro b hb
      have hnot := (mergeResultsAux_spec rest _ b hb).1
      exact fun h => hnot (h ▸ List.mem_cons_self _ _)

/-- Deduplication never lengthens the list. -/
theorem mergeResultsAux_length_le (l : List Rec) :
    ∀ seen, (mergeResultsAux seen l).length ≤ l.length := by
  induction l with
  | nil => intro seen; simp [mergeResultsAux]
  | cons a rest ih =>
    intro seen
    by_cases hk : recKey a ∈ seen
    · rw [mergeResultsAux, if_pos hk]
      exact (ih seen).trans (Nat.le_succ _)
    · rw [mergeResultsAux, if_neg hk]
      simpa using ih _

/-- Replacing the INULL sentinel keeps distinct keys distinct, provided no
record already carried an absent input (which the SQL COALESCE guarantees). -/
theorem restoreRec_key_ne (r s : Rec) (hr : r.input ≠ none) (hs : s.input ≠ none)
    (h : recKey r ≠ recKey s) : recKey (restoreRec r) ≠ recKey (restoreRec s) := by
  rcases hri : r.input with _ | x
  · exact absurd hri hr
  rcases hsi : s.input with _ | y
  · exact absurd hsi hs
  simp only [restoreRec, recKey] at h ⊢
  by_cases hx : x = INULL <;> by_cases hy : y = INULL <;>
    simp [hri, hsi, hx, hy, Prod.ext_iff] at h ⊢ <;> tauto

/-- C2: in every returned page no two records share the (report_id, input)
key, and each record kept by `_merge_results` is the first-encountered row
with its key in join order (the leftmost match of `find?`). -/
theorem c2_dedup_first_and_page_unique (tmp : List Rec) (limit : Nat)
    (h : ∀ r ∈ tmp, r.input ≠ none) :
    ((restoreInput (_merge_results tmp)).take limit).Pairwise
      (fun a b => recKey a ≠ recKey b) ∧
    ∀ r ∈ _merge_results tmp,
      tmp.find? (fun x => decide (recKey x = recKey r)) = some r := by
  have hfind : ∀ r ∈ _merge_results tmp,
      tmp.find? (fun x => decide (recKey x = recKey r)) = some r :=
    fun r hr => (mergeResultsAux_spec tmp [] r hr).2
  refine ⟨?_, hfind⟩
  have hmem : ∀ r ∈ _merge_results tmp, r ∈ tmp :=
    fun r hr => List.mem_of_find?_eq_some (hfind r hr)
  have hpw : (_merge_results tmp).Pairwise (fun a b => recKey a ≠ recKey b) :=
    mergeResultsAux_pairwise tmp []
  have hpw2 : (restoreInput (_merge_results tmp)).Pairwise
      (fun a b => recKey a ≠ recKey b) := by
    rw [restoreInput, List.pairwise_map]
    refine hpw.imp_of_mem ?_
    intro a b ha hb hab
    exact restoreRec_key_ne _ _ (h _ (hmem _ ha)) (h _ (hmem _ hb)) hab
  exact List.Pairwise.sublist (List.take_sublist _ _) hpw2

/-- The record that `fpEx` / `mrEx` merge to, and a key-sharing duplicate. -/
def recA : Rec := recOfRow "" (mergeRow (some fpEx) (some mrEx))

/-- A record sharing `recA`'s (report_id, input) key but differing elsewhere. -/
def recB : Rec := { recA with scores := "2" }

/-- Concrete instance of C2: a two-element stream with a duplicated key. -/
theorem c2_dedup_first_and_page_unique_witness :
    (∀ r ∈ [recA, recB], r.input ≠ none) ∧
    (((restoreInput (_merge_results [recA, recB])).take 10).Pairwise
      (fun a b => recKey a ≠ recKey b) ∧
     ∀ r ∈ _merge_results [recA, recB],
       [recA, recB].find? (fun x => decide (recKey x = recKey r)) = some r) :=
  ⟨by decide, c2_dedup_first_and_page_unique [recA, recB] 10 (by decide)⟩

/-- C9: after the post-merge fixup loop no record carries the INULL
sentinel as its input, and every record whose input was the sentinel is
re-emitted with the explicit absent marker. -/
theorem c9_sentinel_restored (rs : List Rec) :
    (∀ r ∈ restoreInput rs, r.input ≠ some INULL) ∧
    (∀ r ∈ rs, r.input = some INULL →
      restoreRec r = { r with input := none } ∧
      { r with input := none } ∈ restoreInput rs) := by
  constructor
  · intro r hr
    rw [restoreInput] at hr
    obtain ⟨x, hx, rfl⟩ := List.mem_map.mp hr
    rw [restoreRec]
    by_cases h : x.input = some INULL
    · simp [h]
    · rw [if_neg h]
      exact h
  · intro r hr hin
    have hrr : restoreRec r = { r with input := none } := by
      rw [restoreRec, if_pos hin]
    exact ⟨hrr, hrr ▸ List.mem_map_of_mem restoreRec hr⟩

/-- A merged record whose input holds the INULL sentinel. -/
def recN : Rec := { recA with input := some INULL }

/-- Concrete instance of C9 on a one-record list carrying the sentinel. -/
theorem c9_sentinel_restored_witness :
    (∀ r ∈ restoreInput [recN], r.input ≠ some INULL) ∧
    (∀ r ∈ [recN], r.input = some INULL →
      restoreRec r = { r with input := none } ∧
      { r with input := none } ∈ restoreInput [recN]) :=
  c9_sentinel_restored [recN]

/-- C5: a tri-state filter covering the whole domain is a no-op; any other
subset of the domain collapses to the boolean "the literal true is in the
set". -/
theorem c5_tristate_collapse (s : Finset String)
    (hsub : s ⊆ ({"true", "false"} : Finset String)) :
    (s = ({"true", "false"} : Finset String) →
      normalizeTristate (some s) = none) ∧
    (s ≠ ({"true", "false"} : Finset String) →
      ∃ b, normalizeTristate (some s) = some b ∧ (b = true ↔ "true" ∈ s)) := by
  constructor
  · intro h
    simp [normalizeTristate, h]
  · intro hne
    refine ⟨decide (s = ({"true"} : Finset String)),
      by simp [normalizeTristate, hne], ?_⟩
    rw [decide_eq_true_eq]
    constructor
    · rintro rfl
      exact Finset.mem_singleton_self _
    · intro ht
      have hf : "false" ∉ s := by
        intro hf
        apply hne
        apply Finset.Subset.antisymm hsub
        intro x hx
        rcases Finset.mem_insert.mp hx with rfl | hx'
        · exact ht
        · rw [Finset.mem_singleton] at hx'
          exact hx' ▸ hf
      apply Finset.ext
      intro x
      rw [Finset.mem_singleton]
      constructor
      · intro hx
        rcases Finset.mem_insert.mp (hsub hx) with rfl | hx'
        · rfl
        · rw [Finset.mem_singleton] at hx'
          exact absurd (hx' ▸ hx) hf
      · rintro rfl
        exact ht

/-- Concrete instance of C5 at the singleton containing "true". -/
theorem c5_tristate_collapse_witness :
    (({"true"} : Finset String) ⊆ ({"true", "false"} : Finset String)) ∧
    (({"true"} : Finset String) ≠ ({"true", "false"} : Finset String) →
      ∃ b, normalizeTristate (some ({"true"} : Finset String)) = some b ∧
        (b = true ↔ "true" ∈ ({"true"} : Finset String))) :=
  ⟨by decide, (c5_tristate_collapse ({"true"} : Finset String) (by decide)).2⟩

/-- The Python `math.ceil(a / b)` formula agrees with the exact rational
ceiling for positive divisors. -/
theorem pyCeil_cast (a b : Nat) (hb : 0 < b) :
    (pyCeil a b : ℤ) = ⌈(a : ℚ) / (b : ℚ)⌉ := by
  have hdm := Nat.div_add_mod (a + b - 1) b
  have hmlt : (a + b - 1) % b < b := Nat.mod_lt _ hb
  have h1 : a ≤ b * pyCeil a b := by unfold pyCeil; omega
  have h2 : b * pyCeil a b < a + b := by unfold pyCeil; omega
  have hbq : (0 : ℚ) < (b : ℚ) := by exact_mod_cast hb
  have h1q : (a : ℚ) ≤ (b : ℚ) * ((pyCeil a b : Nat) : ℚ) := by exact_mod_cast h1
  have h2q : (b : ℚ) * ((pyCeil a b : Nat) : ℚ) < (a : ℚ) + (b : ℚ) := by
    exact_mod_cast h2
  rw [eq_comm, Int.ceil_eq_iff]
  constructor
  · rw [Int.cast_natCast]
    refine (lt_div_iff₀ hbq).mpr ?_
    nlinarith [h2q]
  · rw [Int.cast_natCast]
    refine (div_le_iff₀ hbq).mpr ?_
    nlinarith [h1q]

/-- Updating key `k` makes it look up to the new value. -/
theorem lookupArg_setArg_self (args : List (String × String)) (k v : String) :
    lookupArg (setArg args k v) k = some v := by
  rw [setArg]
  by_cases h : args.any (fun p => p.1 == k)
  · rw [if_pos h]
    induction args with
    | nil => simp at h
    | cons a rest ih =>
      by_cases ha : a.1 == k
      · simp [lookupArg, List.find?, ha]
      · have h' : rest.any (fun p => p.1 == k) := by
          rcases List.any_eq_true.mp h with ⟨p, hp, hpk⟩
          rcases List.mem_cons.mp hp with rfl | hp'
          · exact absurd hpk (by simpa using ha)
          · exact List.any_eq_true.mpr ⟨p, hp', hpk⟩
        have ihr := ih h'
        simp only [List.map_cons, List.find?, ha, if_neg (by simpa using ha)]
        simpa [lookupArg, Bool.of_not_eq_true ha] using ihr
  · rw [if_neg h]
    induction args with
    | nil => simp [lookupArg, List.find?]
    | cons a rest ih =>
      have ha : (a.1 == k) = false := by
        by_contra hcon
        exact h (List.any_eq_true.mpr ⟨a, List.mem_cons_self _ _,
          by simpa using hcon⟩)
      have h' : ¬ rest.any (fun p => p.1 == k) := by
        intro hcon
        rcases List.any_eq_true.mp hcon with ⟨p, hp, hpk⟩
        exact h (List.any_eq_true.mpr ⟨p, List.mem_cons_of_mem _ hp, hpk⟩)
      simpa [lookupArg, List.find?, ha] using ih h'

/-- Updating a different key leaves the lookup unchanged. -/
theorem lookupArg_setArg_ne (args : List (String × String)) (k k2 w : String)
    (hk : k ≠ k2) : lookupArg (setArg args k2 w) k = lookupArg args k := by
  have hkk2 : (k2 == k) = false := by simpa using Ne.symm hk
  rw [setArg]
  by_cases h : args.any (fun p => p.1 == k2)
  · rw [if_pos h]
    clear h
    induction args with
    | nil => rfl
    | cons a rest ih =>
      by_cases ha : a.1 == k2
      · have ha1 : a.1 = k2 := by simpa using ha
        have hak : (a.1 == k) = false := by rw [ha1]; simpa using Ne.symm hk
        simpa [lookupArg, List.find?, ha, hkk2, hak] using ih
      · have ha' : (a.1 == k2) = false := by simpa using ha
        by_cases hak : a.1 == k
        · simp [lookupArg, List.find?, ha', hak]
        · have hak' : (a.1 == k) = false := by simpa using hak
          simpa [lookupArg, List.find?, ha', hak'] using ih
  · rw [if_neg h]
    simp [lookupArg, List.find?_append, List.find?, hkk2, Option.or_none]

/-- `current_page` is computed the same way on both pagination branches. -/
theorem paginate_current_page (offset limit n : Nat)
    (args : List (String × String)) :
    (paginate offset limit n args).current_page
      = ((pyCeil offset limit : Nat) : Int) + 1 := by
  rw [paginate]
  split <;> rfl

/-- Pagination on a short page: exact count, computed pages, no next link. -/
theorem paginate_lt (offset limit n : Nat) (args : List (String × String))
    (h : n < limit) :
    paginate offset limit n args
      = { offset := offset, limit := limit,
          count := ((offset + n : Nat) : Int),
          pages := ((pyCeil (offset + n) limit : Nat) : Int),
          current_page := ((pyCeil offset limit : Nat) : Int) + 1,
          next_url := none } := by
  rw [paginate]
  simp [h]

/-- Pagination on a full page: sentinel count / pages and a next link with
offset advanced by limit. -/
theorem paginate_ge (offset limit n : Nat) (args : List (String × String))
    (h : ¬ n < limit) :
    paginate offset limit n args
      = { offset := offset, limit := limit, count := -1, pages := -1,
          current_page := ((pyCeil offset limit : Nat) : Int) + 1,
          next_url := some (setArg (setArg args "offset"
            (toString (offset + limit))) "limit" (toString limit)) } := by
  rw [paginate]
  simp [h]

/-- C3: pagination metadata policy of list_measurements.  With `n` the
number of returned results: a short page (`n < limit`) fixes
`count = offset + n`, `pages = ceil(count / limit)` and omits the next
link; a full page reports the -1 sentinels and a next link whose query
string carries `offset + limit`; `current_page = ceil(offset / limit) + 1`
always. -/
theorem c3_pagination_policy (userAgent : String) (probe_asn : Option String)
    (order : String) (failure anomaly confirmed : Option (Finset String))
    (offset limit : Nat) (args : List (String × String)) (baseUrl : String)
    (rows : List (Option SideRow × Option SideRow))
    (hua : pyStartsWith userAgent "okhttp" = false)
    (hasn : ∀ s, probe_asn = some s → ∃ n, parse_probe_asn s = Except.ok n)
    (horder : pyLower order = "asc" ∨ pyLower order = "desc")
    (hlim : 0 < limit) (hrows : rows.length ≤ limit) :
    ∃ resp : ListResponse,
      list_measurements userAgent probe_asn order failure anomaly confirmed
        offset limit args baseUrl (DbOutcome.ok rows) = Except.ok resp ∧
      (resp.results.length < limit →
        resp.metadata.count = ((offset + resp.results.length : Nat) : Int) ∧
        resp.metadata.pages
          = ⌈(((offset + resp.results.length : Nat) : ℚ)) / (limit : ℚ)⌉ ∧
        resp.metadata.next_url = none) ∧
      (¬ resp.results.length < limit →
        resp.metadata.count = -1 ∧ resp.metadata.pages = -1 ∧
        ∃ u, resp.metadata.next_url = some u ∧
          lookupArg u "offset" = some (toString (offset + limit))) ∧
      resp.metadata.current_page = ⌈(offset : ℚ) / (limit : ℚ)⌉ + 1 := by
  have hmerge_le : (_merge_results (rows.map (fun p => recOfRow baseUrl (mergeRow p.1 p.2)))).length ≤ limit := by
    have h1 := mergeResultsAux_length_le (rows.map (fun p => recOfRow baseUrl (mergeRow p.1 p.2))) []
    simp only [List.length_map] at h1
    exact h1.trans hrows
  have hreslen : (restoreInput (_merge_results (rows.map (fun p => recOfRow baseUrl (mergeRow p.1 p.2))))).length ≤ limit := by
    simpa [restoreInput] using hmerge_le
  have htake : (restoreInput (_merge_results (rows.map (fun p => recOfRow baseUrl (mergeRow p.1 p.2))))).take limit = restoreInput (_merge_results (rows.map (fun p => recOfRow baseUrl (mergeRow p.1 p.2)))) :=
    List.take_of_length_le hreslen
  have heval : list_measurements userAgent probe_asn order failure anomaly confirmed offset limit args baseUrl (DbOutcome.ok rows) = Except.ok (buildPage offset limit args baseUrl rows) := by
    unfold list_measurements
    rw [hua]
    rw [if_neg (by decide)]
    rcases probe_asn with _ | s
    · dsimp only
      rw [if_neg (not_not_intro horder)]
    · dsimp only
      obtain ⟨n, hn⟩ := hasn s rfl
      rw [hn]
      dsimp only [Except.map]
      rw [if_neg (not_not_intro horder)]
  have hpage : buildPage offset limit args baseUrl rows = ListResponse.mk (paginate offset limit (restoreInput (_merge_results (rows.map (fun p => recOfRow baseUrl (mergeRow p.1 p.2))))).length args) (((restoreInput (_merge_results (rows.map (fun p => recOfRow baseUrl (mergeRow p.1 p.2))))).take limit).map ResultObj.record) := rfl
  rw [hpage] at heval
  refine ⟨_, heval, ?_, ?_, ?_⟩
  · intro hlt
    simp only [htake, List.length_map] at hlt ⊢
    rw [paginate_lt _ _ _ _ hlt]
    refine ⟨rfl, ?_, rfl⟩
    exact_mod_cast pyCeil_cast _ limit hlim
  · intro hge
    simp only [htake, List.length_map] at hge ⊢
    rw [paginate_ge _ _ _ _ hge]
    refine ⟨rfl, rfl, _, rfl, ?_⟩
    rw [lookupArg_setArg_ne _ _ _ _ (by decide), lookupArg_setArg_self]
  · simp only [paginate_current_page]
    exact_mod_cast congrArg (fun z => z + (1 : ℤ)) (pyCeil_cast offset limit hlim)

/-- Concrete instance of the C3 pagination policy at an empty result set. -/
theorem c3_pagination_policy_witness :
    (pyStartsWith "curl" "okhttp" = false) ∧ (0 < 100) ∧
    (∃ resp : ListResponse,
      list_measurements "curl" none "desc" none none none 0 100 [] ""
        (DbOutcome.ok []) = Except.ok resp ∧
      (resp.results.length < 100 →
        resp.metadata.count = ((0 + resp.results.length : Nat) : Int) ∧
        resp.metadata.pages
          = ⌈(((0 + resp.results.length : Nat) : ℚ)) / ((100 : Nat) : ℚ)⌉ ∧
        resp.metadata.next_url = none) ∧
      (¬ resp.results.length < 100 →
        resp.metadata.count = -1 ∧ resp.metadata.pages = -1 ∧
        ∃ u, resp.metadata.next_url = some u ∧
          lookupArg u "offset" = some (toString (0 + 100))) ∧
      resp.metadata.current_page = ⌈((0 : Nat) : ℚ) / ((100 : Nat) : ℚ)⌉ + 1) :=
  ⟨by decide, by decide,
   c3_pagination_policy "curl" none "desc" none none none 0 100 [] "" []
     (by decide) (fun _ h => Option.noConfusion h) (Or.inr (by decide))
     (by decide) (by decide)⟩

/-- C8: a psycopg2 QueryCanceledError wrapped in a sqlalchemy
OperationalError maps to `abort(504)` — an HTTPException, rendered as a
response and not fed to the Sentry error telemetry — while any other
OperationalError is re-raised unmodified and surfaces as a 500 internal
error. -/
theorem c8_db_error_handling (userAgent : String) (probe_asn : Option String)
    (order : String) (failure anomaly confirmed : Option (Finset String))
    (offset limit : Nat) (args : List (String × String)) (baseUrl : String)
    (hua : pyStartsWith userAgent "okhttp" = false)
    (hasn : ∀ s, probe_asn = some s → ∃ n, parse_probe_asn s = Except.ok n)
    (horder : pyLower order = "asc" ∨ pyLower order = "desc") :
    (list_measurements userAgent probe_asn order failure anomaly confirmed
        offset limit args baseUrl (DbOutcome.operationalError true)
      = Except.error (ApiError.httpAbort 504) ∧
     (ApiError.httpAbort 504).reportedToSentry = false ∧
     (ApiError.httpAbort 504).statusCode = 504) ∧
    (list_measurements userAgent probe_asn order failure anomaly confirmed
        offset limit args baseUrl (DbOutcome.operationalError false)
      = Except.error ApiError.operationalError ∧
     ApiError.operationalError.statusCode = 500) := by
  constructor
  · refine ⟨?_, rfl, rfl⟩
    unfold list_measurements
    rw [hua]
    rw [if_neg (by decide)]
    rcases probe_asn with _ | s
    · dsimp only
      rw [if_neg (not_not_intro horder)]
    · dsimp only
      obtain ⟨n, hn⟩ := hasn s rfl
      rw [hn]
      dsimp only [Except.map]
      rw [if_neg (not_not_intro horder)]
  · refine ⟨?_, rfl⟩
    unfold list_measurements
    rw [hua]
    rw [if_neg (by decide)]
    rcases probe_asn with _ | s
    · dsimp only
      rw [if_neg (not_not_intro horder)]
    · dsimp only
      obtain ⟨n, hn⟩ := hasn s rfl
      rw [hn]
      dsimp only [Except.map]
      rw [if_neg (not_not_intro horder)]

/-- Concrete instance of the C8 timeout / propagation split. -/
theorem c8_db_error_handling_witness :
    (list_measurements "curl" none "desc" none none none 0 100 [] ""
        (DbOutcome.operationalError true)
      = Except.error (ApiError.httpAbort 504) ∧
     (ApiError.httpAbort 504).reportedToSentry = false ∧
     (ApiError.httpAbort 504).statusCode = 504) ∧
    (list_measurements "curl" none "desc" none none none 0 100 [] ""
        (DbOutcome.operationalError false)
      = Except.error ApiError.operationalError ∧
     ApiError.operationalError.statusCode = 500) :=
  c8_db_error_handling "curl" none "desc" none none none 0 100 [] ""
    (by decide) (fun _ h => Option.noConfusion h) (Or.inr (by decide))

/-- C10: an okhttp user agent short-circuits list_measurements to the fixed
canned page regardless of every other parameter: count 1, pages 1,
current_page 1, no next link and a single result whose measurement_url is
the empty string. -/
theorem c10_okhttp_canned (userAgent : String) (probe_asn : Option String)
    (order : String) (failure anomaly confirmed : Option (Finset String))
    (offset limit : Nat) (args : List (String × String)) (baseUrl : String)
    (db : DbOutcome) (h : pyStartsWith userAgent "okhttp" = true) :
    list_measurements userAgent probe_asn order failure anomaly confirmed
      offset limit args baseUrl db = Except.ok bug_probe1034_response ∧
    bug_probe1034_response.metadata.count = 1 ∧
    bug_probe1034_response.metadata.pages = 1 ∧
    bug_probe1034_response.metadata.current_page = 1 ∧
    bug_probe1034_response.metadata.next_url = none ∧
    bug_probe1034_response.results = [ResultObj.urlOnly ""] := by
  refine ⟨?_, rfl, rfl, rfl, rfl, rfl⟩
  unfold list_measurements
  rw [h, if_pos rfl]

/-- Concrete instance of C10: invalid probe_asn, order and limit are all
ignored for an okhttp client. -/
theorem c10_okhttp_canned_witness :
    list_measurements "okhttp/3.12.1" (some "not-a-number") "sideways"
      none none none 7 0 [] "" (DbOutcome.operationalError false)
      = Except.ok bug_probe1034_response ∧
    bug_probe1034_response.metadata.count = 1 ∧
    bug_probe1034_response.metadata.pages = 1 ∧
    bug_probe1034_response.metadata.current_page = 1 ∧
    bug_probe1034_response.metadata.next_url = none ∧
    bug_probe1034_response.results = [ResultObj.urlOnly ""] :=
  c10_okhttp_canned "okhttp/3.12.1" (some "not-a-number") "sideways"
    none none none 7 0 [] "" (DbOutcome.operationalError false) (by decide)

/-- C4: for a canonical-tagged identifier whose locator row was found and
whose range fetch returned a success status, each integrity failure — body
length different from the frame length, slice length different from the
intra-frame length, or a slice not delimited by brace bytes — raises the
fatal RuntimeError (a 500 internal error), never the 404 used for
NotFound. -/
theorem c4_integrity_error (decompressLZ4opt : List Nat → Option (List Nat))
    (decompressLZ4 : List Nat → List Nat) (measurement_id : String)
    (fpFetch : FetchOutcome) (m : MsmtRow) (status : Nat)
    (body : List Nat) (msm_no : Nat)
    (hfp : pyStartsWith measurement_id "temp-fid-" = false)
    (hre : reMsmId measurement_id = some msm_no)
    (hst : status < 400)
    (hbad : body.length ≠ m.frame_size ∨
      (msmtSlice decompressLZ4 m body).length ≠ m.intra_size ∨
      (msmtSlice decompressLZ4 m body).take 1 ≠ [123] ∨
      lastByte (msmtSlice decompressLZ4 m body) ≠ [125]) :
    ∃ msg, get_measurement decompressLZ4opt decompressLZ4 measurement_id
        fpFetch (some m) status body
        = Except.error (ApiError.runtimeError msg) ∧
      ApiError.runtimeError msg ≠ ApiError.httpAbort 404 ∧
      (ApiError.runtimeError msg).statusCode = 500 := by
  unfold get_measurement
  rw [hfp]
  rw [if_neg (by decide)]
  rw [hre]
  dsimp only
  unfold get_measurement_canonical
  rw [if_neg (Nat.not_le.mpr hst)]
  by_cases h1 : body.length = m.frame_size
  · have h2 : (msmtSlice decompressLZ4 m body).length ≠ m.intra_size ∨
        (msmtSlice decompressLZ4 m body).take 1 ≠ [123] ∨
        lastByte (msmtSlice decompressLZ4 m body) ≠ [125] := by
      rcases hbad with h | h
      · exact absurd h1 h
      · exact h
    rw [if_neg (not_not_intro h1), if_pos h2]
    exact ⟨"Failed to decompress LZ4 frame to measurement.json", rfl,
      fun hcon => ApiError.noConfusion hcon, rfl⟩
  · rw [if_pos h1]
    exact ⟨"Failed to fetch LZ4 frame", rfl,
      fun hcon => ApiError.noConfusion hcon, rfl⟩

/-- Concrete instance of C4: a range response one byte short of the
expected frame length. -/
theorem c4_integrity_error_witness :
    ∃ msg, get_measurement (fun _ => none) (fun l => l) "temp-id-1"
        (FetchOutcome.response 0 []) (some (MsmtRow.mk 0 1 0 1 "t" "f")) 200 []
        = Except.error (ApiError.runtimeError msg) ∧
      ApiError.runtimeError msg ≠ ApiError.httpAbort 404 ∧
      (ApiError.runtimeError msg).statusCode = 500 :=
  c4_integrity_error (fun _ => none) (fun l => l) "temp-id-1"
    (FetchOutcome.response 0 []) (MsmtRow.mk 0 1 0 1 "t" "f") 200 [] 1
    (by decide) (by decide) (by decide) (Or.inl (by decide))

/-- C6 counterexample: a fastpath fetch answered with status 500 raises
BadRequest (HTTP 400), not the 404 NotFound the claim states; and a
connection-phase failure propagates as an uncaught 500, also not
NotFound. -/
theorem c6_counterexample :
    get_measurement (fun _ => none) (fun l => l) "temp-fid-x"
        (FetchOutcome.response 500 []) none 200 []
      = Except.error (ApiError.badRequest "No measurement found") ∧
    get_measurement (fun _ => none) (fun l => l) "temp-fid-x"
        (FetchOutcome.response 500 []) none 200 []
      ≠ Except.error (ApiError.httpAbort 404) ∧
    (ApiError.badRequest "No measurement found").statusCode = 400 ∧
    get_measurement (fun _ => none) (fun l => l) "temp-fid-x"
        FetchOutcome.connectionError none 200 []
      = Except.error ApiError.httpClientError ∧
    ApiError.httpClientError.statusCode = 500 := by
  have h1 : get_measurement (fun _ => none) (fun l => l) "temp-fid-x"
      (FetchOutcome.response 500 []) none 200 []
      = Except.error (ApiError.badRequest "No measurement found") := rfl
  refine ⟨h1, ?_, rfl, rfl, rfl⟩
  rw [h1]
  intro hcon
  exact ApiError.noConfusion (Except.error.inj hcon)

/-- C6 amended: for every fastpath-tagged identifier the failure class
depends on where the fetch fails.  A response with a non-200 status, or a
failure inside the `try` block after the response was obtained (the status
assertion, reading the body, LZ4 decompression), yields BadRequest (HTTP
400) with "No measurement found"; a failure of `conn.request` /
`conn.getresponse` themselves — which run before the `try` block —
propagates as an uncaught exception surfacing as a 500 internal error,
neither BadRequest nor NotFound. -/
theorem c6_fastpath_badrequest (decompressLZ4opt : List Nat → Option (List Nat))
    (decompressLZ4 : List Nat → List Nat) (measurement_id : String)
    (lookup : Option MsmtRow) (status : Nat) (body : List Nat)
    (hfp : pyStartsWith measurement_id "temp-fid-" = true) :
    (∀ fpStatus fpBody,
      fpStatus ≠ 200 ∨ decompressLZ4opt fpBody = none →
      get_measurement decompressLZ4opt decompressLZ4 measurement_id
          (FetchOutcome.response fpStatus fpBody) lookup status body
        = Except.error (ApiError.badRequest "No measurement found") ∧
      (ApiError.badRequest "No measurement found").statusCode = 400) ∧
    (get_measurement decompressLZ4opt decompressLZ4 measurement_id
        FetchOutcome.connectionError lookup status body
      = Except.error ApiError.httpClientError ∧
     ApiError.httpClientError.statusCode = 500 ∧
     ApiError.httpClientError.isHTTPException = false) := by
  constructor
  · intro fpStatus fpBody hfail
    refine ⟨?_, rfl⟩
    unfold get_measurement
    rw [hfp, if_pos rfl]
    unfold get_one_fastpath_measurement
    dsimp only
    rcases hfail with h | h
    · rw [if_neg h]
    · by_cases hs : fpStatus = 200
      · rw [if_pos hs, h]
      · rw [if_neg hs]
  · refine ⟨?_, rfl, rfl⟩
    unfold get_measurement
    rw [hfp, if_pos rfl]
    rfl

/-- Concrete instance of the amended C6: a 500 remote status yields
BadRequest, a connection-phase failure the uncaught 500. -/
theorem c6_fastpath_badrequest_witness :
    (get_measurement (fun _ => none) (fun l => l) "temp-fid-ab"
        (FetchOutcome.response 500 []) none 200 []
      = Except.error (ApiError.badRequest "No measurement found") ∧
     (ApiError.badRequest "No measurement found").statusCode = 400) ∧
    (get_measurement (fun _ => none) (fun l => l) "temp-fid-ab"
        FetchOutcome.connectionError none 200 []
      = Except.error ApiError.httpClientError ∧
     ApiError.httpClientError.statusCode = 500 ∧
     ApiError.httpClientError.isHTTPException = false) :=
  ⟨(c6_fastpath_badrequest (fun _ => none) (fun l => l) "temp-fid-ab" none 200
      [] (by decide)).1 500 [] (Or.inl (by decide)),
   (c6_fastpath_badrequest (fun _ => none) (fun l => l) "temp-fid-ab" none 200
      [] (by decide)).2⟩

/-- C7 counterexample: probe_asn "xx" makes list_measurements raise the
uncaught ValueError from `int` — a 500 internal error, not a 4xx
InvalidArgument — and "AS-1" parses to the negative value -1 even though
the claim requires a non-negative integer. -/
theorem c7_counterexample :
    list_measurements "curl" (some "xx") "desc" none none none 0 100 [] ""
      (DbOutcome.ok []) = Except.error ApiError.valueError ∧
    ApiError.valueError.isHTTPException = false ∧
    ApiError.valueError.statusCode = 500 ∧
    parse_probe_asn "AS-1" = Except.ok (-1) := by
  exact ⟨rfl, rfl, rfl, rfl⟩

/-- C7 amended: probe_asn strips an optional "AS" prefix and parses the
remainder with Python `int`; non-numeric input raises an uncaught
ValueError that surfaces as a 500 internal error, not InvalidArgument. -/
theorem c7_asn_valueerror (userAgent : String) (s : String) (order : String)
    (failure anomaly confirmed : Option (Finset String)) (offset limit : Nat)
    (args : List (String × String)) (baseUrl : String) (db : DbOutcome)
    (hua : pyStartsWith userAgent "okhttp" = false)
    (hbad : pyIntParse (if pyStartsWith s "AS" then pyDropChars s 2 else s)
      = none) :
    list_measurements userAgent (some s) order failure anomaly confirmed
      offset limit args baseUrl db = Except.error ApiError.valueError ∧
    ApiError.valueError.isHTTPException = false ∧
    ApiError.valueError.statusCode = 500 := by
  refine ⟨?_, rfl, rfl⟩
  have hp : parse_probe_asn s = Except.error ApiError.valueError := by
    unfold parse_probe_asn
    dsimp only
    rw [hbad]
  unfold list_measurements
  rw [hua]
  rw [if_neg (by decide)]
  dsimp only
  rw [hp]
  rfl

/-- Concrete instance of the amended C7 at probe_asn "xx". -/
theorem c7_asn_valueerror_witness :
    list_measurements "curl" (some "xx") "asc" none none none 5 10 [] ""
      (DbOutcome.operationalError true) = Except.error ApiError.valueError ∧
    ApiError.valueError.isHTTPException = false ∧
    ApiError.valueError.statusCode = 500 :=
  c7_asn_valueerror "curl" "xx" "asc" none none none 5 10 [] ""
    (DbOutcome.operationalError true) (by decide) (by decide)
